import Mathlib

/-
Verification of the chat backend (backend/main.py): session store, rate
limiter, sliding-window selector and the chat orchestrator.  Python dicts
are embedded as insertion-ordered association lists, datetimes as integers
(an absolute tick count; `timedelta(seconds=s)` becomes subtraction of `s`),
Python strings as `List Char`, and the fallible upstream SDK call as an
explicit `Except`-valued function argument.

Layout: definitions (the embedding of the code, plus the concrete data the
witnesses evaluate), then general lemmas, then one theorem per verified
property with its witness or counterexample.
-/

namespace ChatSpec


/-- MAX_MESSAGE_LENGTH = 2000 (backend/main.py). -/
def MAX_MESSAGE_LENGTH : Nat := 2000

/-- SLIDING_WINDOW_SIZE = 20 (backend/main.py).  The orchestrator below is
parametric in the window size (it is a configuration knob); this is the
value the program configures. -/
def SLIDING_WINDOW_SIZE : Nat := 20

/-- RATE_LIMIT_MAX_REQUESTS = 10 (backend/main.py). -/
def RATE_LIMIT_MAX_REQUESTS : Nat := 10

/-- RATE_LIMIT_WINDOW_SECONDS = 60 (backend/main.py). -/
def RATE_LIMIT_WINDOW_SECONDS : Int := 60

/-- MAX_CONCURRENT_SESSIONS = 4 (backend/main.py). -/
def MAX_CONCURRENT_SESSIONS : Nat := 4

/-- SESSION_INACTIVITY_TIMEOUT_MINUTES = 5, expressed in the tick unit used
for all times here (seconds): 300. -/
def SESSION_INACTIVITY_TIMEOUT_SECONDS : Int := 300

/-- Message role: the code uses the strings "user" and "assistant". -/
inductive Role : Type where
  | user : Role
  | assistant : Role
deriving DecidableEq, Repr

/-- A chat message `{"role": ..., "content": ...}`; content is a Python
string, embedded as `List Char`. -/
structure Message where
  role : Role
  content : List Char
deriving DecidableEq, Repr

/-- One entry of the `sessions` dict: `{"history": [...], "last_activity": t}`. -/
structure SessionData where
  history : List Message
  last_activity : Int
deriving DecidableEq, Repr

/-- The module-level mutable state: the `sessions` dict and the
`rate_limit_tracker` dict, both embedded as insertion-ordered association
lists (Python dicts preserve insertion order; keys are unique). -/
structure ServerState where
  sessions : List (String × SessionData)
  rate_limit_tracker : List (String × List Int)
deriving DecidableEq, Repr

/-- Python dict assignment `d[k] = v`: replace in place if the key is
present, else append at the end (insertion order). -/
def setKey {α : Type} : List (String × α) → String → α → List (String × α)
  | [], k, v => [(k, v)]
  | (k', v') :: rest, k, v =>
      if k' = k then (k, v) :: rest else (k', v') :: setKey rest k v

/-- Python `str.strip()`: remove leading and trailing whitespace. -/
def pyStrip (s : List Char) : List Char :=
  ((s.dropWhile Char.isWhitespace).reverse.dropWhile Char.isWhitespace).reverse

/-- `ChatRequest.validate_message` (backend/main.py:160-179): error if the
message is empty or whitespace-only (`not v or not v.strip()`), error if the
raw length exceeds MAX_MESSAGE_LENGTH (`len(v) > MAX_MESSAGE_LENGTH`, the
UNtrimmed length), otherwise return `v.strip()`. -/
def validate_message (v : List Char) : Except String (List Char) :=
  if pyStrip v = [] then Except.error "Mensagem nao pode estar vazia"
  else if MAX_MESSAGE_LENGTH < v.length then Except.error "Mensagem excede o limite"
  else Except.ok (pyStrip v)

/-- The window-selector step of `chat` (backend/main.py:280):
`history[-K:] if len(history) > K else history`.  For the positive window
sizes the program configures (K = SLIDING_WINDOW_SIZE = 20), the Python
slice `history[-K:]` under `len(history) > K` is the trailing K elements,
i.e. `drop (length - K)`. -/
def select_window (T : List Message) (K : Nat) : List Message :=
  if K < T.length then T.drop (T.length - K) else T

/-- `check_rate_limit` (backend/main.py:91-124) as a pure function of the
tracker dict and the current time `now`; returns the decision and the new
tracker.  The code initialises a missing entry to `[]`, overwrites the
entry with the timestamps still inside the window (`ts > window_start`),
rejects without appending when the kept count reaches
RATE_LIMIT_MAX_REQUESTS, and otherwise appends `now` and accepts. -/
def check_rate_limit (tracker : List (String × List Int)) (session_id : String)
    (now : Int) : Bool × List (String × List Int) :=
  let window_start := now - RATE_LIMIT_WINDOW_SECONDS
  let kept := ((List.lookup session_id tracker).getD []).filter
    (fun ts => window_start < ts)
  if RATE_LIMIT_MAX_REQUESTS ≤ kept.length then
    (false, setKey tracker session_id kept)
  else
    (true, setKey tracker session_id (kept ++ [now]))

/-- `cleanup_inactive_sessions` (backend/main.py:127-146) with the cutoff
computation (`datetime.now() - timedelta(minutes=TIMEOUT)`) abstracted over
`now` and the timeout: removes every session with
`last_activity < now - timeout`, deletes each removed session's rate-limit
entry, and returns the new state together with the number removed. -/
def evict_inactive (now timeout : Int) (st : ServerState) : ServerState × Nat :=
  let cutoff := now - timeout
  let removed := (st.sessions.filter (fun p => p.2.last_activity < cutoff)).map Prod.fst
  (⟨st.sessions.filter (fun p => ¬ p.2.last_activity < cutoff),
    st.rate_limit_tracker.filter (fun p => ¬ removed.contains p.1)⟩,
   removed.length)

/-- `cleanup_inactive_sessions` as the program calls it: at the configured
five-minute timeout. -/
def cleanup_inactive_sessions (now : Int) (st : ServerState) : ServerState × Nat :=
  evict_inactive now SESSION_INACTIVITY_TIMEOUT_SECONDS st

/-- The error taxonomy of the `/chat` handler: pydantic validation failure
(422), rate limit (429), session capacity (503), upstream failure (500). -/
inductive ChatError : Type where
  | validationError : String → ChatError
  | rateLimitExceeded : ChatError
  | capacityExceeded : ChatError
  | upstreamError : String → ChatError
deriving DecidableEq, Repr

instance {ε α : Type} [DecidableEq ε] [DecidableEq α] : DecidableEq (Except ε α) := fun
  | Except.ok a, Except.ok b =>
      if h : a = b then isTrue (by rw [h])
      else isFalse (by intro hh; cases hh; exact h rfl)
  | Except.ok _, Except.error _ => isFalse (by intro h; cases h)
  | Except.error _, Except.ok _ => isFalse (by intro h; cases h)
  | Except.error e, Except.error f =>
      if h : e = f then isTrue (by rw [h])
      else isFalse (by intro hh; cases hh; exact h rfl)

/-- The success payload of `/chat` (`ChatResponse` in backend/main.py). -/
structure ChatResponse where
  response : List Char
  history_size : Nat
  session_id : String
deriving DecidableEq, Repr

/-- The observable outcome of one `/chat` request: the HTTP-level result,
the state left behind, how many upstream calls were made, which window (and
for which session) was sent upstream, and the messages appended to stored
transcripts, each tagged with the session id it was appended under. -/
structure ChatOutcome where
  result : Except ChatError ChatResponse
  state : ServerState
  upstream_calls : Nat
  window_sent : Option (String × List Message)
  appends : List (String × Message)
deriving DecidableEq, Repr

/-- `request.session_id or str(uuid.uuid4())` (backend/main.py:240):
Python `or` treats `None` and the empty string as absent, so both fall back
to the freshly generated id. -/
def resolve_sid (session_id : Option String) (generated_id : String) : String :=
  match session_id with
  | some s => if s = "" then generated_id else s
  | none => generated_id

/-- Steps 5-9 of the handler for an admitted request whose session entry is
present (backend/main.py:266-304): refresh `last_activity`, append the user
message, select the window, call upstream once; on failure surface a 500
with the user message retained, on success append the assistant reply and
return the reply with the full transcript length. -/
def chat_turn (upstream : List Message → Except String (List Char)) (K : Nat)
    (now : Int) (sid : String) (msg : List Char) (st : ServerState) : ChatOutcome :=
  let prev := (List.lookup sid st.sessions).getD ⟨[], now⟩
  let hist1 := prev.history ++ [⟨Role.user, msg⟩]
  let st1 : ServerState := ⟨setKey st.sessions sid ⟨hist1, now⟩, st.rate_limit_tracker⟩
  let window := select_window hist1 K
  match upstream window with
  | Except.error e =>
      ⟨Except.error (ChatError.upstreamError e), st1, 1, some (sid, window),
        [(sid, ⟨Role.user, msg⟩)]⟩
  | Except.ok reply =>
      let hist2 := hist1 ++ [⟨Role.assistant, reply⟩]
      ⟨Except.ok ⟨reply, hist2.length, sid⟩,
        ⟨setKey st1.sessions sid ⟨hist2, now⟩, st1.rate_limit_tracker⟩, 1,
        some (sid, window),
        [(sid, ⟨Role.user, msg⟩), (sid, ⟨Role.assistant, reply⟩)]⟩

/-- The whole `/chat` handler (backend/main.py:212-310) including the
pydantic validation that runs before the handler body.  `generated_id` is
the value `str(uuid.uuid4())` would produce; `K` is the configured window
size (SLIDING_WINDOW_SIZE in the program).  Order, as in the code:
validation, rate-limit admission, then for an unknown session id eviction
of inactive sessions followed by the capacity check and creation, and
finally the turn itself. -/
def chat (upstream : List Message → Except String (List Char)) (K : Nat)
    (now : Int) (generated_id : String) (st : ServerState)
    (message : List Char) (session_id : Option String) : ChatOutcome :=
  match validate_message message with
  | Except.error d => ⟨Except.error (ChatError.validationError d), st, 0, none, []⟩
  | Except.ok msg =>
    let sid := resolve_sid session_id generated_id
    let rl := check_rate_limit st.rate_limit_tracker sid now
    let st1 : ServerState := ⟨st.sessions, rl.2⟩
    if rl.1 then
      if (List.lookup sid st1.sessions).isSome then
        chat_turn upstream K now sid msg st1
      else
        let st2 := (cleanup_inactive_sessions now st1).1
        if MAX_CONCURRENT_SESSIONS ≤ st2.sessions.length then
          ⟨Except.error ChatError.capacityExceeded, st2, 0, none, []⟩
        else
          chat_turn upstream K now sid msg
            ⟨setKey st2.sessions sid ⟨[], now⟩, st2.rate_limit_tracker⟩
    else
      ⟨Except.error ChatError.rateLimitExceeded, st1, 0, none, []⟩

/-- The `/clear` handler (backend/main.py:323-346): 404 if the session is
unknown, otherwise empty its history and refresh its timestamp. -/
def clear_history (now : Int) (st : ServerState) (session_id : String) :
    Except String ServerState :=
  match List.lookup session_id st.sessions with
  | none => Except.error "Sessao nao encontrada"
  | some _ => Except.ok ⟨setKey st.sessions session_id ⟨[], now⟩, st.rate_limit_tracker⟩

/-- The `/sessions` handler (backend/main.py:388-416): the total count and,
per session, its id, message count and last activity. -/
def list_sessions (st : ServerState) : Nat × List (String × Nat × Int) :=
  (st.sessions.length,
   st.sessions.map (fun p => (p.1, p.2.history.length, p.2.last_activity)))

/-- The admission step exactly as the claim words it: drop only the stored
timestamps STRICTLY older than `now - W` (keep a timestamp equal to
`now - W`), then reject without recording iff the remainder reaches the
maximum.  The code instead keeps only `ts > now - W`.  This definition
exists solely to exhibit where claim and code part ways. -/
def check_rate_limit_claimed (tracker : List (String × List Int)) (session_id : String)
    (now : Int) : Bool × List (String × List Int) :=
  let window_start := now - RATE_LIMIT_WINDOW_SECONDS
  let kept := ((List.lookup session_id tracker).getD []).filter
    (fun ts => ¬ ts < window_start)
  if RATE_LIMIT_MAX_REQUESTS ≤ kept.length then
    (false, setKey tracker session_id kept)
  else
    (true, setKey tracker session_id (kept ++ [now]))

/-- One server operation: a `/chat` request (time, generated id, raw
message, optional session id), a `/clear` request, or the explicit
`/cleanup-sessions` maintenance call. -/
inductive Op : Type where
  | chatOp : Int → String → List Char → Option String → Op
  | clearOp : Int → String → Op
  | cleanupOp : Int → Op

/-- A server state together with the ghost logs of this run: every message
appended to some stored transcript, tagged with the session id it was
appended under, and every window sent upstream, tagged with the session it
was sent on behalf of. -/
structure TraceResult where
  state : ServerState
  appendLog : List (String × Message)
  windowLog : List (String × List Message)

/-- Apply one operation, extending the ghost logs. -/
def applyOp (upstream : List Message → Except String (List Char)) (K : Nat)
    (r : TraceResult) (op : Op) : TraceResult :=
  match op with
  | Op.chatOp now gen message sid_opt =>
      let o := chat upstream K now gen r.state message sid_opt
      ⟨o.state, r.appendLog ++ o.appends, r.windowLog ++ o.window_sent.toList⟩
  | Op.clearOp now sid =>
      match clear_history now r.state sid with
      | Except.ok st2 => ⟨st2, r.appendLog, r.windowLog⟩
      | Except.error _ => r
  | Op.cleanupOp now =>
      ⟨(cleanup_inactive_sessions now r.state).1, r.appendLog, r.windowLog⟩

def runTrace (upstream : List Message → Except String (List Char)) (K : Nat)
    (ops : List Op) (r : TraceResult) : TraceResult :=
  ops.foldl (applyOp upstream K) r

/-- The isolation invariant: store keys are unique, everything stored in
B's transcript was logged as appended under B, and everything in a window
sent on behalf of B was logged as appended under B. -/
def Isolated (r : TraceResult) : Prop :=
  ((r.state.sessions.map Prod.fst).Nodup)
  ∧ (∀ B d, List.lookup B r.state.sessions = some d →
      ∀ m ∈ d.history, (B, m) ∈ r.appendLog)
  ∧ (∀ B w, (B, w) ∈ r.windowLog → ∀ m ∈ w, (B, m) ∈ r.appendLog)

/-- The empty server: no sessions, no rate records, empty logs. -/
def emptyTrace : TraceResult := ⟨⟨[], []⟩, [], []⟩

def mU1 : Message := ⟨Role.user, ['u','1']⟩

def mR1 : Message := ⟨Role.assistant, ['r']⟩

def okUpstream : List Message → Except String (List Char) := fun _ => Except.ok ['r']

def failUpstream : List Message → Except String (List Char) :=
  fun _ => Except.error "API Error"

def c3_msgs : List (List Char) :=
  [['u', '1'], ['u', '2'], ['u', '3'], ['u', '4'], ['u', '5']]

def c3_st5 : ServerState :=
  c3_msgs.foldl (fun s m => (chat okUpstream 6 0 "g" s m (some "sid")).state) ⟨[], []⟩

def c3_turn6 : ChatOutcome := chat okUpstream 6 0 "g" c3_st5 [' ', 'u', '6'] (some "sid")

def c4_full_state : ServerState :=
  ⟨[("s1", ⟨[], 0⟩), ("s2", ⟨[], 0⟩), ("s3", ⟨[], 0⟩), ("s4", ⟨[], 0⟩)], []⟩

def c5_state : ServerState := ⟨[("s", ⟨[mU1, mR1], 0⟩)], []⟩

def c6_input : List Char := List.replicate MAX_MESSAGE_LENGTH 'a' ++ [' ']

def c7_state : ServerState :=
  ⟨[("a", ⟨[], 600⟩), ("b", ⟨[mU1], 800⟩)], [("a", [1]), ("b", [2])]⟩

def c9_ops : List Op :=
  [Op.chatOp 0 "g1" ['a'] (some "A"), Op.chatOp 0 "g2" ['b'] (some "B")]

theorem lookup_cons_eq {α : Type} (k k' : String) (v' : α) (rest : List (String × α)) :
    List.lookup k ((k', v') :: rest) = if k = k' then some v' else List.lookup k rest := by
  by_cases h : k = k'
  · subst h; simp [List.lookup]
  · have hb : (k == k') = false := beq_false_of_ne h
    simp [List.lookup, hb, h]

theorem lookup_setKey_self {α : Type} (l : List (String × α)) (k : String) (v : α) :
    List.lookup k (setKey l k v) = some v := by
  induction l with
  | nil => simp [setKey, lookup_cons_eq]
  | cons p rest ih =>
    obtain ⟨k', v'⟩ := p
    by_cases h : k' = k
    · simp [setKey, h, lookup_cons_eq]
    · simp [setKey, h, lookup_cons_eq, Ne.symm h, ih]

theorem lookup_setKey_ne {α : Type} (l : List (String × α)) (k k₂ : String) (v : α)
    (h : k₂ ≠ k) : List.lookup k₂ (setKey l k v) = List.lookup k₂ l := by
  induction l with
  | nil => simp [setKey, lookup_cons_eq, h]
  | cons p rest ih =>
    obtain ⟨k', v'⟩ := p
    by_cases hk : k' = k
    · subst hk
      simp [setKey, lookup_cons_eq, h]
    · simp [setKey, hk, lookup_cons_eq, ih]

theorem lookup_eq_none_iff {α : Type} (l : List (String × α)) (k : String) :
    List.lookup k l = none ↔ k ∉ l.map Prod.fst := by
  induction l with
  | nil => simp [List.lookup]
  | cons p rest ih =>
    obtain ⟨k', v'⟩ := p
    rw [lookup_cons_eq]
    by_cases h : k = k'
    · simp [h]
    · simp [h, ih]

theorem mem_of_lookup_eq_some {α : Type} (l : List (String × α)) (k : String) (v : α)
    (h : List.lookup k l = some v) : (k, v) ∈ l := by
  induction l with
  | nil => simp [List.lookup] at h
  | cons p rest ih =>
    obtain ⟨k', v'⟩ := p
    rw [lookup_cons_eq] at h
    by_cases hk : k = k'
    · rw [if_pos hk] at h
      cases h
      subst hk
      exact List.mem_cons_self _ _
    · rw [if_neg hk] at h
      exact List.mem_cons_of_mem _ (ih h)

theorem keys_filter_subset {α : Type} (l : List (String × α)) (p : String × α → Bool) :
    (l.filter p).map Prod.fst ⊆ l.map Prod.fst := by
  intro x hx
  simp only [List.mem_map] at hx ⊢
  obtain ⟨y, hy, hyx⟩ := hx
  exact ⟨y, (List.mem_filter.1 hy).1, hyx⟩

theorem lookup_filter_of_nodup {α : Type} (l : List (String × α)) (k : String) (v : α)
    (p : String × α → Bool) (hn : (l.map Prod.fst).Nodup)
    (h : List.lookup k l = some v) :
    List.lookup k (l.filter p) = if p (k, v) then some v else none := by
  induction l with
  | nil => simp [List.lookup] at h
  | cons q rest ih =>
    obtain ⟨k', v'⟩ := q
    simp only [List.map_cons, List.nodup_cons] at hn
    rw [lookup_cons_eq] at h
    by_cases hk : k = k'
    · rw [if_pos hk] at h
      have hv : v' = v := Option.some.inj h
      subst hv
      subst hk
      rw [List.filter_cons]
      by_cases hp : p (k, v')
      · simp [hp, lookup_cons_eq]
      · rw [if_neg (by simp [hp])]
        rw [if_neg (by simp [hp])]
        rw [(lookup_eq_none_iff _ _).2]
        intro hmem
        exact hn.1 (keys_filter_subset rest p hmem)
    · rw [if_neg hk] at h
      rw [List.filter_cons]
      by_cases hp : p (k', v')
      · rw [if_pos hp, lookup_cons_eq, if_neg hk]
        exact ih hn.2 h
      · rw [if_neg (by simp [hp])]
        exact ih hn.2 h

theorem lookup_filter_none_of_all_false {α : Type} (l : List (String × α)) (k : String)
    (p : String × α → Bool) (h : ∀ v, p (k, v) = false) :
    List.lookup k (l.filter p) = none := by
  induction l with
  | nil => simp
  | cons q rest ih =>
    obtain ⟨k', v'⟩ := q
    rw [List.filter_cons]
    by_cases hp : p (k', v')
    · rw [if_pos hp, lookup_cons_eq]
      by_cases hk : k = k'
      · subst hk
        rw [h v'] at hp
        cases hp
      · rw [if_neg hk]
        exact ih
    · rw [if_neg (by simp [hp])]
      exact ih

theorem lookup_filter_none_of_none {α : Type} (l : List (String × α)) (k : String)
    (p : String × α → Bool) (h : List.lookup k l = none) :
    List.lookup k (l.filter p) = none := by
  rw [lookup_eq_none_iff] at h ⊢
  intro hmem
  exact h (keys_filter_subset l p hmem)

theorem filter_length_lt_of_exists_false {α : Type} (l : List α) (p : α → Bool)
    (h : ∃ x ∈ l, p x = false) : (l.filter p).length < l.length := by
  induction l with
  | nil => simp at h
  | cons a rest ih =>
    rw [List.filter_cons]
    by_cases hp : p a
    · obtain ⟨x, hx, hpx⟩ := h
      rcases List.mem_cons.1 hx with rfl | hx
      · rw [hp] at hpx; cases hpx
      · rw [if_pos hp]
        simpa using ih ⟨x, hx, hpx⟩
    · rw [if_neg (by simp [hp])]
      simp only [List.length_cons]
      exact Nat.lt_succ_of_le (List.length_filter_le p rest)

theorem filter_eq_self_of_le_length {α : Type} (l : List α) (p : α → Bool)
    (h : l.length ≤ (l.filter p).length) : l.filter p = l := by
  induction l with
  | nil => rfl
  | cons a t ih =>
    rw [List.filter_cons] at h ⊢
    by_cases hp : p a
    · rw [if_pos hp] at h ⊢
      simp only [List.length_cons] at h
      rw [ih (by omega)]
    · rw [if_neg (by simp [hp])] at h ⊢
      have hle := List.length_filter_le p t
      simp only [List.length_cons] at h
      exact absurd h (by omega)

theorem mem_keys_setKey {α : Type} (l : List (String × α)) (k x : String) (v : α)
    (h : x ∈ (setKey l k v).map Prod.fst) : x ∈ l.map Prod.fst ∨ x = k := by
  induction l with
  | nil =>
    simp [setKey] at h
    exact Or.inr h
  | cons p rest ih =>
    obtain ⟨k', v'⟩ := p
    by_cases hk : k' = k
    · rw [setKey, if_pos hk] at h
      simp at h
      rcases h with h | h
      · exact Or.inr h
      · exact Or.inl (by simp; right; exact h)
    · rw [setKey, if_neg hk] at h
      simp at h
      rcases h with h | h
      · exact Or.inl (by simp [h])
      · rcases ih (by simpa using h) with h2 | h2
        · exact Or.inl (by simp at h2 ⊢; right; exact h2)
        · exact Or.inr h2

theorem nodup_setKey {α : Type} (l : List (String × α)) (k : String) (v : α)
    (hn : (l.map Prod.fst).Nodup) : ((setKey l k v).map Prod.fst).Nodup := by
  induction l with
  | nil => simp [setKey]
  | cons p rest ih =>
    obtain ⟨k', v'⟩ := p
    simp only [List.map_cons, List.nodup_cons] at hn
    by_cases hk : k' = k
    · rw [setKey, if_pos hk]
      simp only [List.map_cons, List.nodup_cons]
      exact ⟨by rw [← hk]; exact hn.1, hn.2⟩
    · rw [setKey, if_neg hk]
      simp only [List.map_cons, List.nodup_cons]
      refine ⟨?_, ih hn.2⟩
      intro hmem
      rcases mem_keys_setKey rest k k' v hmem with h2 | h2
      · exact hn.1 h2
      · exact hk h2

theorem lookup_of_mem_nodup {α : Type} (l : List (String × α)) (k : String) (v : α)
    (hn : (l.map Prod.fst).Nodup) (h : (k, v) ∈ l) : List.lookup k l = some v := by
  induction l with
  | nil => simp at h
  | cons p rest ih =>
    obtain ⟨k', v'⟩ := p
    simp only [List.map_cons, List.nodup_cons] at hn
    rw [lookup_cons_eq]
    rcases List.mem_cons.1 h with h2 | h2
    · cases h2
      rw [if_pos rfl]
    · by_cases hk : k = k'
      · exfalso
        subst hk
        exact hn.1 (by simp; exact ⟨v, h2⟩)
      · rw [if_neg hk]
        exact ih hn.2 h2

theorem lookup_filter_some_of_nodup {α : Type} (l : List (String × α)) (k : String)
    (v : α) (p : String × α → Bool) (hn : (l.map Prod.fst).Nodup)
    (h : List.lookup k (l.filter p) = some v) : List.lookup k l = some v := by
  have hmem := mem_of_lookup_eq_some _ _ _ h
  exact lookup_of_mem_nodup l k v hn (List.mem_filter.1 hmem).1

theorem select_window_eq_drop (T : List Message) (K : Nat) :
    select_window T K = T.drop (T.length - min T.length K) := by
  by_cases h : K < T.length
  · rw [select_window, if_pos h, Nat.min_eq_right h.le]
  · push_neg at h
    rw [select_window, if_neg (by omega), Nat.min_eq_left h, Nat.sub_self, List.drop_zero]

theorem mem_select_window (m : Message) (T : List Message) (K : Nat)
    (h : m ∈ select_window T K) : m ∈ T := by
  rw [select_window] at h
  by_cases hK : K < T.length
  · rw [if_pos hK] at h
    exact List.mem_of_mem_drop h
  · rwa [if_neg hK] at h

theorem validate_ok_eq (v m : List Char) (h : validate_message v = Except.ok m) :
    m = pyStrip v := by
  by_cases h1 : pyStrip v = []
  · rw [validate_message, if_pos h1] at h
    cases h
  · by_cases h2 : MAX_MESSAGE_LENGTH < v.length
    · rw [validate_message, if_neg h1, if_pos h2] at h
      cases h
    · rw [validate_message, if_neg h1, if_neg h2] at h
      exact (Except.ok.inj h).symm

theorem dropWhile_ws_replicate_a (n : Nat) (l : List Char) (hn : n ≠ 0) :
    List.dropWhile Char.isWhitespace (List.replicate n 'a' ++ l)
      = List.replicate n 'a' ++ l := by
  have ha : 'a'.isWhitespace = false := by decide
  cases n with
  | zero => exact absurd rfl hn
  | succ m => simp [List.replicate_succ, List.dropWhile_cons, ha]

theorem dropWhile_ws_replicate_a_nil (n : Nat) :
    List.dropWhile Char.isWhitespace (List.replicate n 'a') = List.replicate n 'a' := by
  have ha : 'a'.isWhitespace = false := by decide
  cases n with
  | zero => simp
  | succ m => simp [List.replicate_succ, List.dropWhile_cons, ha]

theorem pyStrip_c6 : pyStrip c6_input = List.replicate MAX_MESSAGE_LENGTH 'a' := by
  have hs : ' '.isWhitespace = true := by decide
  rw [c6_input, pyStrip, dropWhile_ws_replicate_a _ _ (by decide), List.reverse_append,
    List.reverse_replicate]
  simp only [List.reverse_cons, List.reverse_nil, List.nil_append, List.singleton_append,
    List.dropWhile_cons, hs, if_true, dropWhile_ws_replicate_a_nil, List.reverse_replicate]

theorem cleanup_sessions_eq (now : Int) (st : ServerState) :
    (cleanup_inactive_sessions now st).1.sessions
      = st.sessions.filter
          (fun p => ¬ p.2.last_activity < now - SESSION_INACTIVITY_TIMEOUT_SECONDS) := rfl

theorem chat_of_validation_error (upstream : List Message → Except String (List Char))
    (K : Nat) (now : Int) (gen : String) (st : ServerState) (message : List Char)
    (sid_opt : Option String) (d : String)
    (hv : validate_message message = Except.error d) :
    chat upstream K now gen st message sid_opt
      = ⟨Except.error (ChatError.validationError d), st, 0, none, []⟩ := by
  simp [chat, hv]

theorem chat_of_rate_limited (upstream : List Message → Except String (List Char))
    (K : Nat) (now : Int) (gen : String) (st : ServerState) (message : List Char)
    (sid_opt : Option String) (msg : List Char)
    (hv : validate_message message = Except.ok msg)
    (hrl : (check_rate_limit st.rate_limit_tracker (resolve_sid sid_opt gen) now).1 = false) :
    chat upstream K now gen st message sid_opt
      = ⟨Except.error ChatError.rateLimitExceeded,
         ⟨st.sessions,
          (check_rate_limit st.rate_limit_tracker (resolve_sid sid_opt gen) now).2⟩,
         0, none, []⟩ := by
  simp [chat, hv, hrl]

theorem chat_of_known (upstream : List Message → Except String (List Char))
    (K : Nat) (now : Int) (gen : String) (st : ServerState) (message : List Char)
    (sid_opt : Option String) (msg : List Char)
    (hv : validate_message message = Except.ok msg)
    (hrl : (check_rate_limit st.rate_limit_tracker (resolve_sid sid_opt gen) now).1 = true)
    (hk : (List.lookup (resolve_sid sid_opt gen) st.sessions).isSome) :
    chat upstream K now gen st message sid_opt
      = chat_turn upstream K now (resolve_sid sid_opt gen) msg
          ⟨st.sessions,
           (check_rate_limit st.rate_limit_tracker (resolve_sid sid_opt gen) now).2⟩ := by
  simp [chat, hv, hrl, hk]

theorem chat_of_capacity (upstream : List Message → Except String (List Char))
    (K : Nat) (now : Int) (gen : String) (st : ServerState) (message : List Char)
    (sid_opt : Option String) (msg : List Char)
    (hv : validate_message message = Except.ok msg)
    (hrl : (check_rate_limit st.rate_limit_tracker (resolve_sid sid_opt gen) now).1 = true)
    (hk : List.lookup (resolve_sid sid_opt gen) st.sessions = none)
    (hcap : MAX_CONCURRENT_SESSIONS ≤
      ((cleanup_inactive_sessions now
          ⟨st.sessions,
           (check_rate_limit st.rate_limit_tracker (resolve_sid sid_opt gen) now).2⟩).1
        ).sessions.length) :
    chat upstream K now gen st message sid_opt
      = ⟨Except.error ChatError.capacityExceeded,
         (cleanup_inactive_sessions now
           ⟨st.sessions,
            (check_rate_limit st.rate_limit_tracker (resolve_sid sid_opt gen) now).2⟩).1,
         0, none, []⟩ := by
  simp [chat, hv, hrl, hk, hcap]

theorem chat_of_create (upstream : List Message → Except String (List Char))
    (K : Nat) (now : Int) (gen : String) (st : ServerState) (message : List Char)
    (sid_opt : Option String) (msg : List Char)
    (hv : validate_message message = Except.ok msg)
    (hrl : (check_rate_limit st.rate_limit_tracker (resolve_sid sid_opt gen) now).1 = true)
    (hk : List.lookup (resolve_sid sid_opt gen) st.sessions = none)
    (hcap : ¬ MAX_CONCURRENT_SESSIONS ≤
      ((cleanup_inactive_sessions now
          ⟨st.sessions,
           (check_rate_limit st.rate_limit_tracker (resolve_sid sid_opt gen) now).2⟩).1
        ).sessions.length) :
    chat upstream K now gen st message sid_opt
      = chat_turn upstream K now (resolve_sid sid_opt gen) msg
          ⟨setKey ((cleanup_inactive_sessions now
               ⟨st.sessions,
                (check_rate_limit st.rate_limit_tracker (resolve_sid sid_opt gen) now).2⟩).1
              ).sessions
            (resolve_sid sid_opt gen) ⟨[], now⟩,
           ((cleanup_inactive_sessions now
              ⟨st.sessions,
               (check_rate_limit st.rate_limit_tracker (resolve_sid sid_opt gen) now).2⟩).1
             ).rate_limit_tracker⟩ := by
  simp [chat, hv, hrl, hk, hcap]

theorem chat_turn_nodup (upstream : List Message → Except String (List Char)) (K : Nat)
    (now : Int) (sid : String) (msg : List Char) (st : ServerState)
    (hn : (st.sessions.map Prod.fst).Nodup) :
    ((chat_turn upstream K now sid msg st).state.sessions.map Prod.fst).Nodup := by
  cases hw : upstream (select_window
      (((List.lookup sid st.sessions).getD ⟨[], now⟩).history ++ [⟨Role.user, msg⟩]) K) with
  | error e =>
    simp only [chat_turn, hw]
    exact nodup_setKey _ _ _ hn
  | ok r =>
    simp only [chat_turn, hw]
    exact nodup_setKey _ _ _ (nodup_setKey _ _ _ hn)

theorem filter_keys_nodup {α : Type} (l : List (String × α)) (p : String × α → Bool)
    (hn : (l.map Prod.fst).Nodup) : ((l.filter p).map Prod.fst).Nodup :=
  ((List.filter_sublist l).map Prod.fst).nodup hn

/-- Provenance of stored messages across one turn: any message found in any
session's transcript after `chat_turn` was either already stored for that
session before the turn, or is one of the turn's own appends, tagged with
the session it was appended under. -/
theorem chat_turn_history_provenance
    (upstream : List Message → Except String (List Char)) (K : Nat) (now : Int)
    (sid : String) (msg : List Char) (st : ServerState) (B : String) (d : SessionData)
    (hB : List.lookup B (chat_turn upstream K now sid msg st).state.sessions = some d)
    (m : Message) (hm : m ∈ d.history) :
    (∃ dp, List.lookup B st.sessions = some dp ∧ m ∈ dp.history)
    ∨ (B, m) ∈ (chat_turn upstream K now sid msg st).appends := by
  by_cases hBs : B = sid
  · subst hBs
    cases hw : upstream (select_window
        (((List.lookup B st.sessions).getD ⟨[], now⟩).history ++ [⟨Role.user, msg⟩]) K) with
    | error e =>
      simp only [chat_turn, hw] at hB ⊢
      rw [lookup_setKey_self] at hB
      cases hB
      rcases List.mem_append.1 hm with h2 | h2
      · cases hl : List.lookup B st.sessions with
        | none => rw [hl] at h2; simp at h2
        | some dp => rw [hl] at h2; exact Or.inl ⟨dp, rfl, h2⟩
      · simp at h2
        subst h2
        exact Or.inr (by simp)
    | ok r =>
      simp only [chat_turn, hw] at hB ⊢
      rw [lookup_setKey_self] at hB
      cases hB
      rcases List.mem_append.1 hm with h2 | h2
      · rcases List.mem_append.1 h2 with h3 | h3
        · cases hl : List.lookup B st.sessions with
          | none => rw [hl] at h3; simp at h3
          | some dp => rw [hl] at h3; exact Or.inl ⟨dp, rfl, h3⟩
        · simp at h3
          subst h3
          exact Or.inr (by simp)
      · simp at h2
        subst h2
        exact Or.inr (by simp)
  · cases hw : upstream (select_window
        (((List.lookup sid st.sessions).getD ⟨[], now⟩).history ++ [⟨Role.user, msg⟩]) K) with
    | error e =>
      simp only [chat_turn, hw] at hB
      rw [lookup_setKey_ne _ _ _ _ hBs] at hB
      exact Or.inl ⟨d, hB, hm⟩
    | ok r =>
      simp only [chat_turn, hw] at hB
      rw [lookup_setKey_ne _ _ _ _ hBs, lookup_setKey_ne _ _ _ _ hBs] at hB
      exact Or.inl ⟨d, hB, hm⟩

/-- Provenance of the upstream window of one turn: every message in it was
already stored for the turn's session, or is the turn's own user append. -/
theorem chat_turn_window_provenance
    (upstream : List Message → Except String (List Char)) (K : Nat) (now : Int)
    (sid : String) (msg : List Char) (st : ServerState) (B : String) (w : List Message)
    (hw : (chat_turn upstream K now sid msg st).window_sent = some (B, w))
    (m : Message) (hm : m ∈ w) :
    (∃ dp, List.lookup B st.sessions = some dp ∧ m ∈ dp.history)
    ∨ (B, m) ∈ (chat_turn upstream K now sid msg st).appends := by
  have hBw : B = sid ∧ w = select_window
      (((List.lookup sid st.sessions).getD ⟨[], now⟩).history ++ [⟨Role.user, msg⟩]) K := by
    cases hu : upstream (select_window
        (((List.lookup sid st.sessions).getD ⟨[], now⟩).history ++ [⟨Role.user, msg⟩]) K) with
    | error e =>
      simp only [chat_turn, hu] at hw
      exact ⟨(Prod.mk.injEq .. ▸ Option.some.inj hw).1.symm,
             (Prod.mk.injEq .. ▸ Option.some.inj hw).2.symm⟩
    | ok r =>
      simp only [chat_turn, hu] at hw
      exact ⟨(Prod.mk.injEq .. ▸ Option.some.inj hw).1.symm,
             (Prod.mk.injEq .. ▸ Option.some.inj hw).2.symm⟩
  obtain ⟨hB, hweq⟩ := hBw
  subst hB
  subst hweq
  have hmem := mem_select_window m _ K hm
  rcases List.mem_append.1 hmem with h2 | h2
  · cases hl : List.lookup B st.sessions with
    | none => rw [hl] at h2; simp at h2
    | some dp => rw [hl] at h2; exact Or.inl ⟨dp, rfl, h2⟩
  · simp at h2
    subst h2
    cases hu : upstream (select_window
        (((List.lookup B st.sessions).getD ⟨[], now⟩).history ++ [⟨Role.user, msg⟩]) K) with
    | error e => exact Or.inr (by simp [chat_turn, hu])
    | ok r => exact Or.inr (by simp [chat_turn, hu])

/-- One `/chat` request, from any well-formed state: key uniqueness of the
store is preserved, every message stored for any session B after the
request was either already stored for B or is one of this request's
appends tagged B, and every message of the window sent upstream on behalf
of B was already stored for B or is this request's own append for B. -/
theorem chat_step_isolation (upstream : List Message → Except String (List Char))
    (K : Nat) (now : Int) (gen : String) (st : ServerState) (message : List Char)
    (sid_opt : Option String)
    (hn : (st.sessions.map Prod.fst).Nodup) :
    ((chat upstream K now gen st message sid_opt).state.sessions.map Prod.fst).Nodup
    ∧ (∀ B d, List.lookup B (chat upstream K now gen st message sid_opt).state.sessions
          = some d →
        ∀ m ∈ d.history,
          (∃ dp, List.lookup B st.sessions = some dp ∧ m ∈ dp.history)
          ∨ (B, m) ∈ (chat upstream K now gen st message sid_opt).appends)
    ∧ (∀ B w, (chat upstream K now gen st message sid_opt).window_sent = some (B, w) →
        ∀ m ∈ w,
          (∃ dp, List.lookup B st.sessions = some dp ∧ m ∈ dp.history)
          ∨ (B, m) ∈ (chat upstream K now gen st message sid_opt).appends) := by
  cases hv : validate_message message with
  | error d0 =>
    rw [chat_of_validation_error upstream K now gen st message sid_opt d0 hv]
    refine ⟨hn, ?_, ?_⟩
    · intro B d hB m hm
      exact Or.inl ⟨d, hB, hm⟩
    · intro B w hw
      cases hw
  | ok msg =>
    cases hrl : (check_rate_limit st.rate_limit_tracker (resolve_sid sid_opt gen) now).1 with
    | false =>
      rw [chat_of_rate_limited upstream K now gen st message sid_opt _ hv hrl]
      refine ⟨hn, ?_, ?_⟩
      · intro B d hB m hm
        exact Or.inl ⟨d, hB, hm⟩
      · intro B w hw
        cases hw
    | true =>
      cases hk : List.lookup (resolve_sid sid_opt gen) st.sessions with
      | some data =>
        rw [chat_of_known upstream K now gen st message sid_opt _ hv hrl (by rw [hk]; rfl)]
        exact ⟨chat_turn_nodup _ _ _ _ _ _ hn,
               fun B d hB m hm => chat_turn_history_provenance _ _ _ _ _ _ B d hB m hm,
               fun B w hw m hm => chat_turn_window_provenance _ _ _ _ _ _ B w hw m hm⟩
      | none =>
        rcases le_or_lt MAX_CONCURRENT_SESSIONS
            ((cleanup_inactive_sessions now
              ⟨st.sessions,
               (check_rate_limit st.rate_limit_tracker (resolve_sid sid_opt gen) now).2⟩).1
              ).sessions.length with hcap | hcap
        · rw [chat_of_capacity upstream K now gen st message sid_opt _ hv hrl hk hcap]
          refine ⟨?_, ?_, ?_⟩
          · show (((cleanup_inactive_sessions now _).1).sessions.map Prod.fst).Nodup
            rw [cleanup_sessions_eq]
            exact filter_keys_nodup _ _ hn
          · intro B d hB m hm
            rw [show ((⟨Except.error ChatError.capacityExceeded,
                (cleanup_inactive_sessions now
                  ⟨st.sessions,
                   (check_rate_limit st.rate_limit_tracker (resolve_sid sid_opt gen) now).2⟩).1,
                0, none, []⟩ : ChatOutcome)).state
              = (cleanup_inactive_sessions now
                  ⟨st.sessions,
                   (check_rate_limit st.rate_limit_tracker (resolve_sid sid_opt gen) now).2⟩).1
              from rfl, cleanup_sessions_eq] at hB
            exact Or.inl ⟨d, lookup_filter_some_of_nodup _ _ _ _ hn hB, hm⟩
          · intro B w hw
            cases hw
        · rw [chat_of_create upstream K now gen st message sid_opt _ hv hrl hk (by omega)]
          have hn2 : (((setKey ((cleanup_inactive_sessions now
              ⟨st.sessions,
               (check_rate_limit st.rate_limit_tracker (resolve_sid sid_opt gen) now).2⟩).1
              ).sessions (resolve_sid sid_opt gen)
              (⟨[], now⟩ : SessionData))).map Prod.fst).Nodup := by
            apply nodup_setKey
            rw [cleanup_sessions_eq]
            exact filter_keys_nodup _ _ hn
          have htrans : ∀ B (dp : SessionData) (m : Message),
              List.lookup B (setKey ((cleanup_inactive_sessions now
                ⟨st.sessions,
                 (check_rate_limit st.rate_limit_tracker (resolve_sid sid_opt gen) now).2⟩).1
                ).sessions (resolve_sid sid_opt gen) (⟨[], now⟩ : SessionData)) = some dp →
              m ∈ dp.history →
              ∃ dq, List.lookup B st.sessions = some dq ∧ m ∈ dq.history := by
            intro B dp m hB hm
            by_cases hBs : B = resolve_sid sid_opt gen
            · subst hBs
              rw [lookup_setKey_self] at hB
              cases hB
              simp at hm
            · rw [lookup_setKey_ne _ _ _ _ hBs, cleanup_sessions_eq] at hB
              exact ⟨dp, lookup_filter_some_of_nodup _ _ _ _ hn hB, hm⟩
          refine ⟨chat_turn_nodup _ _ _ _ _ _ hn2, ?_, ?_⟩
          · intro B d hB m hm
            rcases chat_turn_history_provenance _ _ _ _ _ _ B d hB m hm with ⟨dp, h1, h2⟩ | h1
            · exact Or.inl (htrans B dp m h1 h2)
            · exact Or.inr h1
          · intro B w hw m hm
            rcases chat_turn_window_provenance _ _ _ _ _ _ B w hw m hm with ⟨dp, h1, h2⟩ | h1
            · exact Or.inl (htrans B dp m h1 h2)
            · exact Or.inr h1

theorem isolated_applyOp (upstream : List Message → Except String (List Char)) (K : Nat)
    (r : TraceResult) (op : Op) (h : Isolated r) : Isolated (applyOp upstream K r op) := by
  obtain ⟨hn, hh, hw⟩ := h
  cases op with
  | chatOp now gen message sid_opt =>
    obtain ⟨cn, ch, cw⟩ := chat_step_isolation upstream K now gen r.state message sid_opt hn
    refine ⟨cn, ?_, ?_⟩
    · intro B d hB m hm
      rcases ch B d hB m hm with ⟨dp, h1, h2⟩ | h1
      · exact List.mem_append_left _ (hh B dp h1 m h2)
      · exact List.mem_append_right _ h1
    · intro B w hBw m hm
      rcases List.mem_append.1 hBw with h1 | h1
      · exact List.mem_append_left _ (hw B w h1 m hm)
      · have h2 : (chat upstream K now gen r.state message sid_opt).window_sent
            = some (B, w) := by
          cases ho : (chat upstream K now gen r.state message sid_opt).window_sent with
          | none => rw [ho] at h1; simp [Option.toList] at h1
          | some x =>
            rw [ho] at h1
            simp [Option.toList] at h1
            rw [← h1]
        rcases cw B w h2 m hm with ⟨dp, h3, h4⟩ | h3
        · exact List.mem_append_left _ (hh B dp h3 m h4)
        · exact List.mem_append_right _ h3
  | clearOp now sid =>
    cases hc : clear_history now r.state sid with
    | error e => exact ⟨by simp [applyOp, hc, hn], by simp only [applyOp, hc]; exact hh,
        by simp only [applyOp, hc]; exact hw⟩
    | ok st2 =>
      have hst2 : st2 = ⟨setKey r.state.sessions sid ⟨[], now⟩,
          r.state.rate_limit_tracker⟩ := by
        rw [clear_history] at hc
        cases hl : List.lookup sid r.state.sessions with
        | none => rw [hl] at hc; cases hc
        | some d => rw [hl] at hc; exact (Except.ok.inj hc).symm
      refine ⟨?_, ?_, ?_⟩
      · simp only [applyOp, hc, hst2]
        exact nodup_setKey _ _ _ hn
      · simp only [applyOp, hc, hst2]
        intro B d hB m hm
        by_cases hBs : B = sid
        · subst hBs
          rw [lookup_setKey_self] at hB
          cases hB
          simp at hm
        · rw [lookup_setKey_ne _ _ _ _ hBs] at hB
          exact hh B d hB m hm
      · simp only [applyOp, hc]
        exact hw
  | cleanupOp now =>
    refine ⟨?_, ?_, ?_⟩
    · simp only [applyOp]
      rw [cleanup_sessions_eq]
      exact filter_keys_nodup _ _ hn
    · simp only [applyOp]
      intro B d hB m hm
      rw [cleanup_sessions_eq] at hB
      exact hh B d (lookup_filter_some_of_nodup _ _ _ _ hn hB) m hm
    · simp only [applyOp]
      exact hw

theorem isolated_runTrace (upstream : List Message → Except String (List Char)) (K : Nat)
    (ops : List Op) (r : TraceResult) (h : Isolated r) :
    Isolated (runTrace upstream K ops r) := by
  induction ops generalizing r with
  | nil => exact h
  | cons op rest ih => exact ih _ (isolated_applyOp upstream K r op h)

/-- C1: for every transcript T and window size K, the selected window has
length `min (len T) K` and equals the last `min (len T) K` elements of T in
order (the whole of T when `len T ≤ K`); and in the orchestrator's turn the
window sent upstream is exactly this selection over the post-append
transcript while the transcript stored for the session stays the full,
untruncated one (the user message, plus the assistant reply on success). -/
theorem C1_sliding_window :
    (∀ (T : List Message) (K : Nat),
        (select_window T K).length = min T.length K
        ∧ select_window T K = T.drop (T.length - min T.length K)
        ∧ (T.length ≤ K → select_window T K = T))
    ∧ (∀ (upstream : List Message → Except String (List Char)) (K : Nat) (now : Int)
        (sid : String) (msg : List Char) (st : ServerState),
        (chat_turn upstream K now sid msg st).window_sent =
          some (sid, select_window
            (((List.lookup sid st.sessions).getD ⟨[], now⟩).history ++ [⟨Role.user, msg⟩]) K)
        ∧ List.lookup sid (chat_turn upstream K now sid msg st).state.sessions =
            some ⟨(((List.lookup sid st.sessions).getD ⟨[], now⟩).history ++ [⟨Role.user, msg⟩])
                    ++ (match upstream (select_window
                          (((List.lookup sid st.sessions).getD ⟨[], now⟩).history
                            ++ [⟨Role.user, msg⟩]) K) with
                        | Except.ok r => [⟨Role.assistant, r⟩]
                        | Except.error _ => []), now⟩) := by
  constructor
  · intro T K
    have hd := select_window_eq_drop T K
    have hmin : min T.length K ≤ T.length := Nat.min_le_left _ _
    refine ⟨?_, hd, ?_⟩
    · rw [hd, List.length_drop]
      omega
    · intro hle
      rw [select_window, if_neg (by omega)]
  · intro upstream K now sid msg st
    simp only [chat_turn]
    cases h : upstream (select_window
        (((List.lookup sid st.sessions).getD ⟨[], now⟩).history ++ [⟨Role.user, msg⟩]) K) with
    | error e => simp [h, lookup_setKey_self]
    | ok r => simp [h, lookup_setKey_self]

/-- C1 witness: a concrete transcript of 2 messages with window size 5. -/
theorem C1_sliding_window_witness : select_window [mU1, mR1] 5 = [mU1, mR1] :=
  (C1_sliding_window.1 [mU1, mR1] 5).2.2 (by decide)

/-- C2 counterexample: ten timestamps stored exactly at `now - W`.  None of
them is older than `now - W` (first conjunct), so by the claim all ten
remain and the request must be rejected (third conjunct computes the
claim's own rule), yet the code accepts it (second conjunct): the code
drops timestamps equal to `now - W`, not only the strictly older ones. -/
theorem C2_rate_limit_counterexample :
    ((List.replicate 10 (0 : Int)).filter
        (fun ts => ts < (60 : Int) - RATE_LIMIT_WINDOW_SECONDS)) = []
    ∧ (check_rate_limit [("s", List.replicate 10 (0 : Int))] "s" 60).1 = true
    ∧ (check_rate_limit_claimed [("s", List.replicate 10 (0 : Int))] "s" 60).1 = false := by
  decide

/-- C2 amended: `check_rate_limit` drops the stored timestamps that are
older than OR EQUAL to `now - W` (keeps exactly those with `ts > now - W`);
it rejects without recording `now` iff the kept count has reached
RATE_LIMIT_MAX_REQUESTS, and otherwise appends `now` and accepts.
Consequently a session whose record holds max-many timestamps all inside
the window is rejected; once at least one of them has left the window
(e.g. at `now + W + ε`) the request is accepted again; and an unknown
session id is always admitted and recorded. -/
theorem C2_rate_limit_amended :
    (∀ (tracker : List (String × List Int)) (sid : String) (now : Int),
        ((check_rate_limit tracker sid now).1 = false ↔
          RATE_LIMIT_MAX_REQUESTS ≤
            (((List.lookup sid tracker).getD []).filter
              (fun ts => now - RATE_LIMIT_WINDOW_SECONDS < ts)).length)
        ∧ ((check_rate_limit tracker sid now).1 = false →
            (check_rate_limit tracker sid now).2 = setKey tracker sid
              (((List.lookup sid tracker).getD []).filter
                (fun ts => now - RATE_LIMIT_WINDOW_SECONDS < ts)))
        ∧ ((check_rate_limit tracker sid now).1 = true →
            (check_rate_limit tracker sid now).2 = setKey tracker sid
              ((((List.lookup sid tracker).getD []).filter
                (fun ts => now - RATE_LIMIT_WINDOW_SECONDS < ts)) ++ [now])))
    ∧ (∀ (tracker : List (String × List Int)) (sid : String) (ts : List Int) (now : Int),
        List.lookup sid tracker = some ts →
        ts.length = RATE_LIMIT_MAX_REQUESTS →
        (∀ t ∈ ts, now - RATE_LIMIT_WINDOW_SECONDS < t) →
        (check_rate_limit tracker sid now).1 = false)
    ∧ (∀ (tracker : List (String × List Int)) (sid : String) (ts : List Int) (now1 : Int),
        List.lookup sid tracker = some ts →
        ts.length ≤ RATE_LIMIT_MAX_REQUESTS →
        (∃ t ∈ ts, t ≤ now1 - RATE_LIMIT_WINDOW_SECONDS) →
        (check_rate_limit tracker sid now1).1 = true)
    ∧ (∀ (tracker : List (String × List Int)) (sid : String) (now : Int),
        List.lookup sid tracker = none →
        check_rate_limit tracker sid now = (true, setKey tracker sid [now])) := by
  refine ⟨?_, ?_, ?_, ?_⟩
  · intro tracker sid now
    simp only [check_rate_limit]
    by_cases h : RATE_LIMIT_MAX_REQUESTS ≤
        (((List.lookup sid tracker).getD []).filter
          (fun ts => now - RATE_LIMIT_WINDOW_SECONDS < ts)).length
    · simp [h]
    · simp [h]
  · intro tracker sid ts now hl hlen hall
    have hfil : (ts.filter (fun t => now - RATE_LIMIT_WINDOW_SECONDS < t)) = ts := by
      apply List.filter_eq_self.2
      intro a ha
      exact decide_eq_true (hall a ha)
    simp only [check_rate_limit, hl, Option.getD_some, hfil, hlen]
    simp
  · intro tracker sid ts now1 hl hlen hex
    have hlt : (ts.filter (fun t => now1 - RATE_LIMIT_WINDOW_SECONDS < t)).length < ts.length := by
      apply filter_length_lt_of_exists_false
      obtain ⟨t, ht, hle⟩ := hex
      exact ⟨t, ht, by simp; omega⟩
    simp only [check_rate_limit, hl, Option.getD_some]
    rw [if_neg (by omega)]
  · intro tracker sid now hl
    simp [check_rate_limit, hl, RATE_LIMIT_MAX_REQUESTS]

/-- C2 amended witness: a full window of ten in-window timestamps is
rejected; after one timestamp leaves the window the request is accepted;
an unknown id is admitted and recorded. -/
theorem C2_rate_limit_amended_witness :
    (check_rate_limit [("s", List.replicate 10 (5 : Int))] "s" 10).1 = false
    ∧ (check_rate_limit [("s", List.replicate 10 (5 : Int))] "s" 66).1 = true
    ∧ check_rate_limit [] "a" 5 = (true, [("a", [(5 : Int)])]) :=
  ⟨C2_rate_limit_amended.2.1 _ "s" _ 10 rfl (by decide) (by decide),
   C2_rate_limit_amended.2.2.1 _ "s" _ 66 rfl (by decide) (by decide),
   C2_rate_limit_amended.2.2.2 [] "a" 5 rfl⟩

/-- C3: with the window size configured to 6, five sequential user turns on
a fresh session leave a 10-entry transcript; the 6th turn's upstream call
receives exactly 6 messages whose last element is the 6th (trimmed) user
message, and the stored transcript afterwards holds exactly 12 entries. -/
theorem C3_scenario_window_six :
    ((List.lookup "sid" c3_st5.sessions).getD ⟨[], 0⟩).history.length = 10
    ∧ c3_turn6.window_sent = some ("sid",
        [⟨Role.assistant, ['r']⟩, ⟨Role.user, ['u', '4']⟩, ⟨Role.assistant, ['r']⟩,
         ⟨Role.user, ['u', '5']⟩, ⟨Role.assistant, ['r']⟩, ⟨Role.user, ['u', '6']⟩])
    ∧ (c3_turn6.window_sent.getD ("", [])).2.length = 6
    ∧ (c3_turn6.window_sent.getD ("", [])).2.getLast? = some ⟨Role.user, ['u', '6']⟩
    ∧ ((List.lookup "sid" c3_turn6.state.sessions).getD ⟨[], 0⟩).history.length = 12 := by
  decide

/-- C4: when, even after inactivity eviction, the store still holds at
least the configured maximum of live sessions, a chat request whose
resolved session id is unknown (no id supplied — a fresh generated id — or
an unknown id) fails with the capacity (503) error, creates no session and
never reaches upstream; a request with a known live session id (and an
admitting rate limiter and working upstream) still succeeds. -/
theorem C4_capacity_behavior :
    (∀ (upstream : List Message → Except String (List Char)) (K : Nat) (now : Int)
       (gen : String) (st : ServerState) (message : List Char) (sid_opt : Option String)
       (msg : List Char),
        validate_message message = Except.ok msg →
        (check_rate_limit st.rate_limit_tracker (resolve_sid sid_opt gen) now).1 = true →
        List.lookup (resolve_sid sid_opt gen) st.sessions = none →
        MAX_CONCURRENT_SESSIONS ≤
          ((cleanup_inactive_sessions now
            ⟨st.sessions,
             (check_rate_limit st.rate_limit_tracker (resolve_sid sid_opt gen) now).2⟩).1
            ).sessions.length →
        (chat upstream K now gen st message sid_opt).result
            = Except.error ChatError.capacityExceeded
        ∧ List.lookup (resolve_sid sid_opt gen)
            (chat upstream K now gen st message sid_opt).state.sessions = none
        ∧ (chat upstream K now gen st message sid_opt).upstream_calls = 0)
    ∧ (∀ (upstream : List Message → Except String (List Char)) (K : Nat) (now : Int)
       (gen : String) (st : ServerState) (message : List Char) (sid : String)
       (data : SessionData) (msg : List Char),
        validate_message message = Except.ok msg →
        sid ≠ "" →
        (check_rate_limit st.rate_limit_tracker sid now).1 = true →
        List.lookup sid st.sessions = some data →
        (∀ w, (upstream w).isOk = true) →
        ∃ r : ChatResponse,
          (chat upstream K now gen st message (some sid)).result = Except.ok r
          ∧ r.session_id = sid) := by
  constructor
  · intro upstream K now gen st message sid_opt msg hv hrl hk hcap
    rw [chat_of_capacity upstream K now gen st message sid_opt msg hv hrl hk hcap]
    refine ⟨rfl, ?_, rfl⟩
    rw [cleanup_sessions_eq]
    exact lookup_filter_none_of_none _ _ _ hk
  · intro upstream K now gen st message sid data msg hv hsid hrl hk hok
    have hre : resolve_sid (some sid) gen = sid := by simp [resolve_sid, hsid]
    rw [chat_of_known upstream K now gen st message (some sid) msg hv
      (by rw [hre]; exact hrl) (by rw [hre, hk]; rfl)]
    rw [hre]
    simp only [chat_turn]
    cases hw : upstream (select_window
        ((((List.lookup sid st.sessions).getD ⟨[], now⟩).history)
          ++ [⟨Role.user, msg⟩]) K) with
    | error e =>
      have := hok (select_window
        ((((List.lookup sid st.sessions).getD ⟨[], now⟩).history)
          ++ [⟨Role.user, msg⟩]) K)
      rw [hw] at this
      simp [Except.isOk, Except.toBool] at this
    | ok r =>
      simp only [hw]
      exact ⟨_, rfl, rfl⟩

/-- C4 witness: with four live sessions (the configured cap), a request
under the fresh id "new" is refused with the capacity error, creates no
session and makes no upstream call, while a request on the live session
"s1" succeeds. -/
theorem C4_capacity_behavior_witness :
    ((chat okUpstream 20 0 "new" c4_full_state ['h', 'i'] none).result
        = Except.error ChatError.capacityExceeded
      ∧ List.lookup "new" (chat okUpstream 20 0 "new" c4_full_state ['h', 'i'] none).state.sessions
          = none
      ∧ (chat okUpstream 20 0 "new" c4_full_state ['h', 'i'] none).upstream_calls = 0)
    ∧ ∃ r : ChatResponse,
        (chat okUpstream 20 0 "g" c4_full_state ['h', 'i'] (some "s1")).result = Except.ok r
        ∧ r.session_id = "s1" :=
  ⟨C4_capacity_behavior.1 okUpstream 20 0 "new" c4_full_state ['h', 'i'] none ['h', 'i']
      (by decide) (by decide) (by decide) (by decide),
   C4_capacity_behavior.2 okUpstream 20 0 "g" c4_full_state ['h', 'i'] "s1" ⟨[], 0⟩
      ['h', 'i'] (by decide) (by decide) (by decide) (by decide) (fun w => rfl)⟩

/-- C5: when the upstream call fails, the request surfaces an
UpstreamError after exactly one upstream attempt, and the user message
appended before the call remains stored in the session's transcript (after
its pre-existing history; empty for a fresh session) with no assistant
message appended. -/
theorem C5_upstream_failure (upstream : List Message → Except String (List Char))
    (K : Nat) (now : Int) (gen : String) (st : ServerState) (message : List Char)
    (sid_opt : Option String) (e : String)
    (hup : ∀ w, upstream w = Except.error e)
    (hcall : (chat upstream K now gen st message sid_opt).upstream_calls ≠ 0) :
    (chat upstream K now gen st message sid_opt).result
        = Except.error (ChatError.upstreamError e)
    ∧ (chat upstream K now gen st message sid_opt).upstream_calls = 1
    ∧ List.lookup (resolve_sid sid_opt gen)
        (chat upstream K now gen st message sid_opt).state.sessions
      = some ⟨((List.lookup (resolve_sid sid_opt gen) st.sessions).getD ⟨[], now⟩).history
                ++ [⟨Role.user, pyStrip message⟩], now⟩ := by
  cases hv : validate_message message with
  | error d =>
    rw [chat_of_validation_error upstream K now gen st message sid_opt d hv] at hcall
    simp at hcall
  | ok msg =>
    have hmsg := validate_ok_eq message msg hv
    subst hmsg
    cases hrl : (check_rate_limit st.rate_limit_tracker (resolve_sid sid_opt gen) now).1 with
    | false =>
      rw [chat_of_rate_limited upstream K now gen st message sid_opt _ hv hrl] at hcall
      simp at hcall
    | true =>
      cases hk : List.lookup (resolve_sid sid_opt gen) st.sessions with
      | some data =>
        rw [chat_of_known upstream K now gen st message sid_opt _ hv hrl (by rw [hk]; rfl)]
        simp only [chat_turn]
        rw [hup]
        simp [lookup_setKey_self, hk]
      | none =>
        rcases le_or_lt MAX_CONCURRENT_SESSIONS
            ((cleanup_inactive_sessions now
              ⟨st.sessions,
               (check_rate_limit st.rate_limit_tracker (resolve_sid sid_opt gen) now).2⟩).1
              ).sessions.length with hcap | hcap
        · rw [chat_of_capacity upstream K now gen st message sid_opt _ hv hrl hk hcap] at hcall
          simp at hcall
        · rw [chat_of_create upstream K now gen st message sid_opt _ hv hrl hk (by omega)]
          simp only [chat_turn]
          rw [hup]
          simp [lookup_setKey_self, hk]

/-- C5 witness: a failing upstream on a known session with two prior
messages yields the upstream error, one attempt, and a stored transcript
of the two prior messages plus the new user turn. -/
theorem C5_upstream_failure_witness :
    (chat failUpstream 20 1 "g" c5_state ['h', 'i'] (some "s")).result
        = Except.error (ChatError.upstreamError "API Error")
    ∧ (chat failUpstream 20 1 "g" c5_state ['h', 'i'] (some "s")).upstream_calls = 1
    ∧ List.lookup "s" (chat failUpstream 20 1 "g" c5_state ['h', 'i'] (some "s")).state.sessions
      = some ⟨[mU1, mR1, ⟨Role.user, ['h', 'i']⟩], 1⟩ := by
  have h := C5_upstream_failure failUpstream 20 1 "g" c5_state ['h', 'i'] (some "s")
    "API Error" (fun w => rfl) (by decide)
  refine ⟨h.1, h.2.1, ?_⟩
  have h3 := h.2.2
  rw [show resolve_sid (some "s") "g" = "s" from rfl] at h3
  rw [h3]
  decide

/-- C6 counterexample: the input of 2000 letters followed by one trailing
space.  Its trimmed form is 2000 characters long and nonempty, so by the
claim (rejection iff empty after trim or trimmed length over the maximum;
interface 1..MAX_LEN after trim) it must be accepted — but the code checks
`len(v)` BEFORE trimming, sees 2001 > 2000, and rejects it. -/
theorem C6_validate_counterexample :
    (pyStrip c6_input).length = MAX_MESSAGE_LENGTH
    ∧ pyStrip c6_input ≠ []
    ∧ (validate_message c6_input).isOk = false := by
  have hlen : c6_input.length = MAX_MESSAGE_LENGTH + 1 := by
    rw [c6_input, List.length_append, List.length_replicate]
    rfl
  have hne : pyStrip c6_input ≠ [] := by
    rw [pyStrip_c6]
    intro h
    have h2 := congrArg List.length h
    rw [List.length_replicate] at h2
    exact absurd h2 (by decide)
  refine ⟨by rw [pyStrip_c6, List.length_replicate], hne, ?_⟩
  rw [validate_message, if_neg hne, if_pos (by omega)]
  rfl

/-- C6 amended: validation fails iff the message is empty after trimming
or its UNtrimmed length exceeds MAX_MESSAGE_LENGTH (the code measures the
raw length, whitespace included); when it succeeds, the value stored and
forwarded is the trimmed form of the input. -/
theorem C6_validate_amended (v : List Char) :
    ((validate_message v).isOk = false ↔
      (pyStrip v = [] ∨ MAX_MESSAGE_LENGTH < v.length))
    ∧ (∀ m, validate_message v = Except.ok m → m = pyStrip v) := by
  constructor
  · by_cases h1 : pyStrip v = []
    · simp [validate_message, h1, Except.isOk, Except.toBool]
    · by_cases h2 : MAX_MESSAGE_LENGTH < v.length
      · simp [validate_message, h1, h2, Except.isOk, Except.toBool]
      · simp [validate_message, h1, h2, Except.isOk, Except.toBool]
  · intro m hm
    by_cases h1 : pyStrip v = []
    · rw [validate_message, if_pos h1] at hm
      cases hm
    · by_cases h2 : MAX_MESSAGE_LENGTH < v.length
      · rw [validate_message, if_neg h1, if_pos h2] at hm
        cases hm
      · rw [validate_message, if_neg h1, if_neg h2] at hm
        exact (Except.ok.inj hm).symm

/-- C6 amended witness: a whitespace-only message is rejected; `" hi "` is
accepted and the stored value is its trimmed form. -/
theorem C6_validate_amended_witness :
    (validate_message [' ', ' ']).isOk = false
    ∧ (['h', 'i'] : List Char) = pyStrip [' ', 'h', 'i', ' '] :=
  ⟨(C6_validate_amended [' ', ' ']).1.2 (Or.inl (by decide)),
   (C6_validate_amended [' ', 'h', 'i', ' ']).2 ['h', 'i'] (by decide)⟩

/-- C7: for every now and timeout, eviction removes from the store exactly
the sessions whose `last_activity` is older than `now - timeout`, removes
each removed session's rate-limit record, and returns the number removed;
every session within the timeout keeps its entry unchanged and is still
listed by the sessions listing.  The program's
`cleanup_inactive_sessions` is this eviction at the configured
five-minute timeout. -/
theorem C7_evict_inactive (now timeout : Int) (st : ServerState)
    (hn : (st.sessions.map Prod.fst).Nodup) :
    (∀ sid data, List.lookup sid st.sessions = some data →
        (data.last_activity < now - timeout →
            List.lookup sid (evict_inactive now timeout st).1.sessions = none
            ∧ List.lookup sid (evict_inactive now timeout st).1.rate_limit_tracker = none)
        ∧ (¬ data.last_activity < now - timeout →
            List.lookup sid (evict_inactive now timeout st).1.sessions = some data
            ∧ (sid, data.history.length, data.last_activity)
                ∈ (list_sessions (evict_inactive now timeout st).1).2))
    ∧ (evict_inactive now timeout st).2
        = (st.sessions.filter (fun p => p.2.last_activity < now - timeout)).length
    ∧ cleanup_inactive_sessions now st
        = evict_inactive now SESSION_INACTIVITY_TIMEOUT_SECONDS st := by
  refine ⟨?_, by simp [evict_inactive], rfl⟩
  intro sid data h
  have hlf := lookup_filter_of_nodup st.sessions sid data
    (fun p => ¬ p.2.last_activity < now - timeout) hn h
  constructor
  · intro hold
    constructor
    · rw [evict_inactive]
      simp only []
      rw [hlf, if_neg (by simp [hold])]
    · rw [evict_inactive]
      simp only []
      apply lookup_filter_none_of_all_false
      intro v
      have hmem : sid ∈ (st.sessions.filter
          (fun p => p.2.last_activity < now - timeout)).map Prod.fst := by
        refine List.mem_map.2 ⟨(sid, data), ?_, rfl⟩
        exact List.mem_filter.2 ⟨mem_of_lookup_eq_some _ _ _ h, by simp [hold]⟩
      simp [hmem]
  · intro hyoung
    have hlk : List.lookup sid (evict_inactive now timeout st).1.sessions = some data := by
      rw [evict_inactive]
      simp only []
      rw [hlf, if_pos (by simp [hyoung])]
    refine ⟨hlk, ?_⟩
    have hmem := mem_of_lookup_eq_some _ _ _ hlk
    exact List.mem_map.2 ⟨(sid, data), hmem, rfl⟩

/-- C7 witness: at now = 1000 with timeout 300, session "a" (idle since
600) is evicted together with its rate record, session "b" (active at 800)
survives and stays listed, and one session is reported removed. -/
theorem C7_evict_inactive_witness :
    List.lookup "a" (evict_inactive 1000 300 c7_state).1.sessions = none
    ∧ List.lookup "a" (evict_inactive 1000 300 c7_state).1.rate_limit_tracker = none
    ∧ List.lookup "b" (evict_inactive 1000 300 c7_state).1.sessions = some ⟨[mU1], 800⟩
    ∧ ("b", 1, (800 : Int)) ∈ (list_sessions (evict_inactive 1000 300 c7_state).1).2
    ∧ (evict_inactive 1000 300 c7_state).2 = 1 := by
  have h := C7_evict_inactive 1000 300 c7_state (by decide)
  have ha := (h.1 "a" ⟨[], 600⟩ (by decide)).1 (by decide)
  have hb := (h.1 "b" ⟨[mU1], 800⟩ (by decide)).2 (by decide)
  exact ⟨ha.1, ha.2, hb.1, hb.2, by rw [h.2.1]; decide⟩

/-- C8 counterexample: session "s" has one expired timestamp and ten
in-window ones.  The request is rejected by the rate limiter, yet the
session's rate-limit record IS mutated: the expired timestamp is pruned
away (11 entries before, 10 after), contradicting "the rejected session's
rate-limit timestamp record is unchanged". -/
theorem C8_reject_counterexample :
    ((chat okUpstream 20 30 "g"
        ⟨[], [("s", (-100 : Int) :: List.replicate 10 0)]⟩ ['h', 'i'] (some "s")).result
      = Except.error ChatError.rateLimitExceeded)
    ∧ List.lookup "s" (chat okUpstream 20 30 "g"
        ⟨[], [("s", (-100 : Int) :: List.replicate 10 0)]⟩ ['h', 'i'] (some "s")
        ).state.rate_limit_tracker
      = some (List.replicate 10 (0 : Int))
    ∧ List.lookup "s" ([("s", (-100 : Int) :: List.replicate 10 0)]
        : List (String × List Int))
      ≠ some (List.replicate 10 (0 : Int)) := by
  decide

/-- C8 amended: when the rate limiter rejects a request, the session store
is untouched (no session created, no transcript appended, no activity
refresh), nothing is appended anywhere and upstream is never called, and
the rejected session's rate-limit record is NOT appended to — but it is
still rewritten to its pruned in-window subset (and an entry is created
for a previously unknown id), so the record itself may change. -/
theorem C8_reject_no_mutation_amended (upstream : List Message → Except String (List Char))
    (K : Nat) (now : Int) (gen : String) (st : ServerState) (message : List Char)
    (sid_opt : Option String)
    (h : (chat upstream K now gen st message sid_opt).result
          = Except.error ChatError.rateLimitExceeded) :
    (chat upstream K now gen st message sid_opt).state.sessions = st.sessions
    ∧ (chat upstream K now gen st message sid_opt).upstream_calls = 0
    ∧ (chat upstream K now gen st message sid_opt).appends = []
    ∧ (chat upstream K now gen st message sid_opt).state.rate_limit_tracker
        = setKey st.rate_limit_tracker (resolve_sid sid_opt gen)
            (((List.lookup (resolve_sid sid_opt gen) st.rate_limit_tracker).getD []).filter
              (fun ts => now - RATE_LIMIT_WINDOW_SECONDS < ts)) := by
  cases hv : validate_message message with
  | error d =>
    rw [chat_of_validation_error upstream K now gen st message sid_opt d hv] at h
    simp at h
  | ok msg =>
    cases hrl : (check_rate_limit st.rate_limit_tracker (resolve_sid sid_opt gen) now).1 with
    | true =>
      cases hk : List.lookup (resolve_sid sid_opt gen) st.sessions with
      | some data =>
        rw [chat_of_known upstream K now gen st message sid_opt _ hv hrl
          (by rw [hk]; rfl)] at h
        cases hw : upstream (select_window
            ((((List.lookup (resolve_sid sid_opt gen) st.sessions).getD ⟨[], now⟩).history)
              ++ [⟨Role.user, msg⟩]) K) with
        | error e => simp [chat_turn, hw] at h
        | ok r => simp [chat_turn, hw] at h
      | none =>
        rcases le_or_lt MAX_CONCURRENT_SESSIONS
            ((cleanup_inactive_sessions now
              ⟨st.sessions,
               (check_rate_limit st.rate_limit_tracker (resolve_sid sid_opt gen) now).2⟩).1
              ).sessions.length with hcap | hcap
        · rw [chat_of_capacity upstream K now gen st message sid_opt _ hv hrl hk hcap] at h
          simp at h
        · rw [chat_of_create upstream K now gen st message sid_opt _ hv hrl hk
            (by omega)] at h
          cases hw : upstream (select_window
              ((((List.lookup (resolve_sid sid_opt gen)
                  (setKey ((cleanup_inactive_sessions now
                    ⟨st.sessions,
                     (check_rate_limit st.rate_limit_tracker (resolve_sid sid_opt gen) now).2⟩).1
                    ).sessions (resolve_sid sid_opt gen) ⟨[], now⟩)).getD ⟨[], now⟩).history)
                ++ [⟨Role.user, msg⟩]) K) with
          | error e => simp [chat_turn, hw] at h
          | ok r => simp [chat_turn, hw] at h
    | false =>
      rw [chat_of_rate_limited upstream K now gen st message sid_opt _ hv hrl]
      refine ⟨rfl, rfl, rfl, ?_⟩
      by_cases hc : RATE_LIMIT_MAX_REQUESTS ≤
          (((List.lookup (resolve_sid sid_opt gen) st.rate_limit_tracker).getD []).filter
            (fun ts => now - RATE_LIMIT_WINDOW_SECONDS < ts)).length
      · simp [check_rate_limit, hc]
      · exfalso
        rw [check_rate_limit] at hrl
        simp only [hc] at hrl
        simp at hrl

/-- C8 amended witness: the counterexample state, via the amended theorem:
the session store stays empty and the record is rewritten to the pruned
in-window subset. -/
theorem C8_reject_no_mutation_amended_witness :
    (chat okUpstream 20 30 "g"
        ⟨[], [("s", (-100 : Int) :: List.replicate 10 0)]⟩ ['h', 'i'] (some "s")
      ).state.sessions = ([] : List (String × SessionData))
    ∧ (chat okUpstream 20 30 "g"
        ⟨[], [("s", (-100 : Int) :: List.replicate 10 0)]⟩ ['h', 'i'] (some "s")
      ).upstream_calls = 0 := by
  have h := C8_reject_no_mutation_amended okUpstream 20 30 "g"
    ⟨[], [("s", (-100 : Int) :: List.replicate 10 0)]⟩ ['h', 'i'] (some "s") (by decide)
  exact ⟨h.1, h.2.1⟩

/-- C9: session isolation over every sequence of operations run from the
empty server.  A message logged as appended under session id A that was
never also appended under B (A ≠ B) appears neither in B's stored
transcript nor in any window sent upstream on behalf of B. -/
theorem C9_session_isolation (upstream : List Message → Except String (List Char))
    (K : Nat) (ops : List Op) (A B : String) (hAB : A ≠ B) (m : Message)
    (hA : (A, m) ∈ (runTrace upstream K ops emptyTrace).appendLog)
    (hB : (B, m) ∉ (runTrace upstream K ops emptyTrace).appendLog) :
    (∀ d, List.lookup B (runTrace upstream K ops emptyTrace).state.sessions = some d →
      m ∉ d.history)
    ∧ (∀ w, (B, w) ∈ (runTrace upstream K ops emptyTrace).windowLog → m ∉ w) := by
  have hiso : Isolated (runTrace upstream K ops emptyTrace) := by
    apply isolated_runTrace
    refine ⟨by simp [emptyTrace], ?_, ?_⟩
    · intro B0 d hB0
      simp [emptyTrace, List.lookup] at hB0
    · intro B0 w hB0
      simp [emptyTrace] at hB0
  refine ⟨?_, ?_⟩
  · intro d hd hm
    exact hB (hiso.2.1 B d hd m hm)
  · intro w hw0 hm
    exact hB (hiso.2.2 B w hw0 m hm)

/-- C9 witness: after a turn on session "A" (message "a") and a turn on
session "B" (message "b"), A's user message is absent from B's stored
transcript. -/
theorem C9_session_isolation_witness :
    (⟨Role.user, ['a']⟩ : Message)
      ∉ (⟨[⟨Role.user, ['b']⟩, ⟨Role.assistant, ['r']⟩], 0⟩ : SessionData).history :=
  (C9_session_isolation okUpstream 20 c9_ops "A" "B" (by decide) ⟨Role.user, ['a']⟩
      (by decide) (by decide)).1
    ⟨[⟨Role.user, ['b']⟩, ⟨Role.assistant, ['r']⟩], 0⟩ (by decide)

/-- C10: a chat request refused with the capacity (503) error has already
passed rate-limit admission, so `now` was recorded in the resolved id's
rate-limit record (one unit of quota consumed), even though the session
store is left unchanged and upstream is never called.  The size hypothesis
holds of every state the program can reach, since sessions are only
created below the cap. -/
theorem C10_capacity_consumes_quota (upstream : List Message → Except String (List Char))
    (K : Nat) (now : Int) (gen : String) (st : ServerState) (message : List Char)
    (sid_opt : Option String)
    (hsize : st.sessions.length ≤ MAX_CONCURRENT_SESSIONS)
    (h : (chat upstream K now gen st message sid_opt).result
          = Except.error ChatError.capacityExceeded) :
    (chat upstream K now gen st message sid_opt).state.sessions = st.sessions
    ∧ (check_rate_limit st.rate_limit_tracker (resolve_sid sid_opt gen) now).1 = true
    ∧ List.lookup (resolve_sid sid_opt gen)
        (chat upstream K now gen st message sid_opt).state.rate_limit_tracker
      = some ((((List.lookup (resolve_sid sid_opt gen) st.rate_limit_tracker).getD []).filter
            (fun ts => now - RATE_LIMIT_WINDOW_SECONDS < ts)) ++ [now])
    ∧ (chat upstream K now gen st message sid_opt).upstream_calls = 0 := by
  cases hv : validate_message message with
  | error d =>
    rw [chat_of_validation_error upstream K now gen st message sid_opt d hv] at h
    simp at h
  | ok msg =>
    cases hrl : (check_rate_limit st.rate_limit_tracker (resolve_sid sid_opt gen) now).1 with
    | false =>
      rw [chat_of_rate_limited upstream K now gen st message sid_opt _ hv hrl] at h
      simp at h
    | true =>
      cases hk : List.lookup (resolve_sid sid_opt gen) st.sessions with
      | some data =>
        rw [chat_of_known upstream K now gen st message sid_opt _ hv hrl
          (by rw [hk]; rfl)] at h
        cases hw : upstream (select_window
            ((((List.lookup (resolve_sid sid_opt gen) st.sessions).getD ⟨[], now⟩).history)
              ++ [⟨Role.user, msg⟩]) K) with
        | error e => simp [chat_turn, hw] at h
        | ok r => simp [chat_turn, hw] at h
      | none =>
        rcases le_or_lt MAX_CONCURRENT_SESSIONS
            ((cleanup_inactive_sessions now
              ⟨st.sessions,
               (check_rate_limit st.rate_limit_tracker (resolve_sid sid_opt gen) now).2⟩).1
              ).sessions.length with hcap | hcap
        · rw [chat_of_capacity upstream K now gen st message sid_opt _ hv hrl hk hcap]
          rw [cleanup_sessions_eq] at hcap
          have hself : st.sessions.filter
              (fun p => ¬ p.2.last_activity < now - SESSION_INACTIVITY_TIMEOUT_SECONDS)
              = st.sessions := by
            apply filter_eq_self_of_le_length
            simp only [ServerState.sessions] at hcap
            omega
          have hnold : st.sessions.filter
              (fun p => p.2.last_activity < now - SESSION_INACTIVITY_TIMEOUT_SECONDS)
              = [] := by
            rw [List.filter_eq_nil_iff]
            intro a ha
            have := (List.filter_eq_self.1 hself) a ha
            simp only [decide_eq_true_eq] at this
            simp [this]
          have htr : (check_rate_limit st.rate_limit_tracker (resolve_sid sid_opt gen) now).2
              = setKey st.rate_limit_tracker (resolve_sid sid_opt gen)
                  ((((List.lookup (resolve_sid sid_opt gen) st.rate_limit_tracker).getD []).filter
                    (fun ts => now - RATE_LIMIT_WINDOW_SECONDS < ts)) ++ [now]) := by
            by_cases hc : RATE_LIMIT_MAX_REQUESTS ≤
                (((List.lookup (resolve_sid sid_opt gen) st.rate_limit_tracker).getD []).filter
                  (fun ts => now - RATE_LIMIT_WINDOW_SECONDS < ts)).length
            · exfalso
              rw [check_rate_limit] at hrl
              simp only [hc] at hrl
              simp at hrl
            · simp [check_rate_limit, hc]
          refine ⟨by rw [cleanup_sessions_eq]; exact hself, rfl, ?_, rfl⟩
          show List.lookup (resolve_sid sid_opt gen)
              ((cleanup_inactive_sessions now
                ⟨st.sessions,
                 (check_rate_limit st.rate_limit_tracker (resolve_sid sid_opt gen) now).2⟩).1
                ).rate_limit_tracker = _
          rw [cleanup_inactive_sessions, evict_inactive]
          simp only [ServerState.sessions, ServerState.rate_limit_tracker, hnold]
          rw [show (List.map Prod.fst ([] : List (String × SessionData))) = [] from rfl]
          rw [show (List.filter (fun p => ¬ ([] : List String).contains p.1)
              (check_rate_limit st.rate_limit_tracker (resolve_sid sid_opt gen) now).2)
            = (check_rate_limit st.rate_limit_tracker (resolve_sid sid_opt gen) now).2 from by
              apply List.filter_eq_self.2
              intro a ha
              simp [List.contains]]
          rw [htr]
          exact lookup_setKey_self _ _ _
        · rw [chat_of_create upstream K now gen st message sid_opt _ hv hrl hk
            (by omega)] at h
          cases hw : upstream (select_window
              ((((List.lookup (resolve_sid sid_opt gen)
                  (setKey ((cleanup_inactive_sessions now
                    ⟨st.sessions,
                     (check_rate_limit st.rate_limit_tracker (resolve_sid sid_opt gen) now).2⟩).1
                    ).sessions (resolve_sid sid_opt gen) ⟨[], now⟩)).getD ⟨[], now⟩).history)
                ++ [⟨Role.user, msg⟩]) K) with
          | error e => simp [chat_turn, hw] at h
          | ok r => simp [chat_turn, hw] at h

/-- C10 witness: the full four-session store refuses a fresh-id request
with the capacity error while recording the request's timestamp under the
generated id. -/
theorem C10_capacity_consumes_quota_witness :
    (chat okUpstream 20 0 "new" c4_full_state ['h', 'i'] none).state.sessions
      = c4_full_state.sessions
    ∧ List.lookup "new"
        (chat okUpstream 20 0 "new" c4_full_state ['h', 'i'] none).state.rate_limit_tracker
      = some [(0 : Int)] := by
  have h := C10_capacity_consumes_quota okUpstream 20 0 "new" c4_full_state ['h', 'i'] none
    (by decide) (by decide)
  refine ⟨h.1, ?_⟩
  have h3 := h.2.2.1
  rw [show resolve_sid none "new" = "new" from rfl] at h3
  rw [h3]
  decide

end ChatSpec
